import Mathlib

/-!
Verification of the customer-simulator repository's core algorithms.

The repository is an agent-based market simulation in Python.  This file
gives a shallow embedding of the algorithmic core in Lean 4 and proves the
key properties of the spec against it:

* review data model and exposure policies
  (`src/repeat_customers/simulation/models.py`,
   `src/research_implementation/simulation/models.py`);
* skepticism assessment
  (`src/research_implementation/simulation/engine.py`,
   `src/reviews_orientation/simulation/engine.py`,
   `src/repeat_customers/simulation/engine.py`);
* post-investigation resolution (all three engines);
* Beta-Bernoulli belief update and repeat-customer preference model.

Embedding conventions:

* Python floats are modelled as `ℚ` (all constants in the source are small
  decimals, so rational arithmetic matches their intended meaning);
* Python integers are `ℤ` (or `ℕ` where the source value is a count);
* date strings are lists of character codes (`List Nat`); Python string
  comparison is lexicographic comparison of code points;
* `datetime` values are seconds (`ℤ`) obtained from the date string by an
  explicit parser for the canonical `"%Y-%m-%d %H:%M:%S"` format;
* `datetime.now()` / the simulation clock is an explicit parameter `now`;
* `random.random()` draws are explicit parameters `u : ℚ` with the check
  `u < p` mirroring the source; `random.sample` is driven by an explicit
  stream of indices;
* free-text logging fields of the source (`detailed_reasons`,
  `rating_distribution`, `review_timeline`) are not modelled: no algorithmic
  decision reads them back.
-/

/-! ## Character-code strings and lexicographic order

Dates in the source are plain Python strings compared with `<`/`sort`, i.e.
lexicographically by code point.  We model them as `List Nat` of character
codes.  `strLt` is Python's strict `<` on strings.
-/

/-- Character codes of a Lean string literal (used to write concrete dates). -/
def strCodes (s : String) : List Nat :=
  s.data.map Char.toNat

/-- Python's strict lexicographic `<` on strings (as code-point lists). -/
def strLt : List Nat → List Nat → Bool
  | [], [] => false
  | [], _ :: _ => true
  | _ :: _, [] => false
  | a :: as, b :: bs =>
    if a < b then true
    else if b < a then false
    else strLt as bs

theorem strLt_asymm : ∀ a b : List Nat, strLt a b = true → strLt b a = false := by
  intro a
  induction a with
  | nil => intro b h; cases b with
    | nil => simp [strLt] at h
    | cons x xs => simp [strLt]
  | cons x xs ih =>
    intro b h
    cases b with
    | nil => simp [strLt] at h
    | cons y ys =>
      simp only [strLt] at h ⊢
      rcases Nat.lt_trichotomy x y with hxy | hxy | hxy
      · simp [Nat.not_lt.mpr (Nat.le_of_lt hxy), hxy]
      · subst hxy
        simp only [Nat.lt_irrefl, if_false] at h ⊢
        exact ih ys h
      · simp [Nat.not_lt.mpr (Nat.le_of_lt hxy), hxy] at h

theorem strLt_total_trans :
    ∀ a b c : List Nat, strLt a c = true → strLt a b = true ∨ strLt b c = true := by
  intro a
  induction a with
  | nil =>
    intro b c h
    cases c with
    | nil => simp [strLt] at h
    | cons z zs =>
      cases b with
      | nil => right; simp [strLt]
      | cons y ys => left; simp [strLt]
  | cons x xs ih =>
    intro b c h
    cases c with
    | nil => simp [strLt] at h
    | cons z zs =>
      cases b with
      | nil => right; simp [strLt]
      | cons y ys =>
        simp only [strLt] at h ⊢
        rcases Nat.lt_trichotomy x y with hxy | hxy | hxy
        · left; simp [hxy]
        · subst hxy
          rcases Nat.lt_trichotomy x z with hxz | hxz | hxz
          · right; simp [hxz]
          · subst hxz
            simp only [Nat.lt_irrefl, if_false] at h
            rcases ih ys zs h with h' | h'
            · left; simp [Nat.lt_irrefl, h']
            · right; simp [Nat.lt_irrefl, h']
          · simp [Nat.not_lt.mpr (Nat.le_of_lt hxz), hxz] at h
        · rcases Nat.lt_trichotomy y z with hyz | hyz | hyz
          · right; simp [hyz]
          · subst hyz
            simp [Nat.not_lt.mpr (Nat.le_of_lt hxy), hxy] at h
          · exfalso
            have hzx : z < x := Nat.lt_trans hyz hxy
            simp [Nat.not_lt.mpr (Nat.le_of_lt hzx), hzx] at h

/-! ## Stable descending sort

Python's `sorted(l, key=k, reverse=True)` and `l.sort(key=k, reverse=True)`
are stable descending sorts: the result is non-increasing in the key and
elements with equal keys keep their original relative order.  `sortRevBy lt`
(with `lt a b` meaning "key of `a` is strictly below key of `b`") implements
exactly that as an insertion sort: an element is inserted in front of the
first already-placed element whose key is not strictly greater.
-/

/-- Insert `x` (an element occurring *before* the elements of the sorted list
in the original order) into a descending sorted list, stably. -/
def insertRevBy (lt : α → α → Bool) (x : α) : List α → List α
  | [] => [x]
  | y :: ys => if lt x y then y :: insertRevBy lt x ys else x :: y :: ys

/-- Stable descending sort by the strict comparison `lt`
(Python `sorted(·, key, reverse=True)`). -/
def sortRevBy (lt : α → α → Bool) : List α → List α
  | [] => []
  | x :: xs => insertRevBy lt x (sortRevBy lt xs)

theorem length_insertRevBy (lt : α → α → Bool) (x : α) :
    ∀ l : List α, (insertRevBy lt x l).length = l.length + 1 := by
  intro l
  induction l with
  | nil => rfl
  | cons y ys ih =>
    simp only [insertRevBy]
    by_cases h : lt x y
    · simp [h, ih]
    · simp [h]

theorem length_sortRevBy (lt : α → α → Bool) :
    ∀ l : List α, (sortRevBy lt l).length = l.length := by
  intro l
  induction l with
  | nil => rfl
  | cons x xs ih => simp [sortRevBy, length_insertRevBy, ih]

theorem perm_insertRevBy (lt : α → α → Bool) (x : α) :
    ∀ l : List α, (insertRevBy lt x l).Perm (x :: l) := by
  intro l
  induction l with
  | nil => simp [insertRevBy]
  | cons y ys ih =>
    simp only [insertRevBy]
    by_cases h : lt x y
    · simp only [h, if_true]
      exact ((ih.cons y).trans (List.Perm.swap x y ys))
    · simp [h]

theorem perm_sortRevBy (lt : α → α → Bool) :
    ∀ l : List α, (sortRevBy lt l).Perm l := by
  intro l
  induction l with
  | nil => simp [sortRevBy]
  | cons x xs ih =>
    exact (perm_insertRevBy lt x (sortRevBy lt xs)).trans (ih.cons x)

theorem pairwise_insertRevBy (lt : α → α → Bool)
    (hasymm : ∀ a b, lt a b = true → lt b a = false)
    (htrans : ∀ a b c, lt a c = true → lt a b = true ∨ lt b c = true)
    (x : α) :
    ∀ l : List α, l.Pairwise (fun a b => lt a b = false) →
      (insertRevBy lt x l).Pairwise (fun a b => lt a b = false) := by
  intro l
  induction l with
  | nil => intro _; simp [insertRevBy]
  | cons y ys ih =>
    intro hl
    rcases List.pairwise_cons.mp hl with ⟨hy, hys⟩
    simp only [insertRevBy]
    by_cases h : lt x y
    · simp only [h, if_true]
      refine List.pairwise_cons.mpr ⟨?_, ih hys⟩
      intro z hz
      rcases List.mem_cons.mp ((perm_insertRevBy lt x ys).mem_iff.mp hz) with hz | hz
      · subst hz; exact hasymm _ _ h
      · exact hy z hz
    · simp only [h, if_false]
      refine List.pairwise_cons.mpr ⟨?_, hl⟩
      intro z hz
      rcases List.mem_cons.mp hz with hz | hz
      · subst hz; simpa using h
      · cases hxz : lt x z with
        | false => rfl
        | true =>
          rcases htrans x y z hxz with h' | h'
          · rw [h'] at h; exact absurd rfl h
          · rw [hy z hz] at h'; exact absurd h' (by simp)

theorem pairwise_sortRevBy (lt : α → α → Bool)
    (hasymm : ∀ a b, lt a b = true → lt b a = false)
    (htrans : ∀ a b c, lt a c = true → lt a b = true ∨ lt b c = true) :
    ∀ l : List α, (sortRevBy lt l).Pairwise (fun a b => lt a b = false) := by
  intro l
  induction l with
  | nil => simp [sortRevBy]
  | cons x xs ih => exact pairwise_insertRevBy lt hasymm htrans x _ ih

/-! ## Dates

Every date the simulation writes or parses uses the single format
`"%Y-%m-%d %H:%M:%S"` (`strftime`/`strptime` calls throughout the source).
`parseDate` models `datetime.strptime(s, "%Y-%m-%d %H:%M:%S")` on that
canonical 19-character shape, returning a timestamp in seconds (proleptic
Gregorian, via the standard days-from-civil computation) or `none` on a
malformed string (the `ValueError` branch of the source).
-/

/-- ASCII digit test on a character code. -/
def isDigit (c : Nat) : Bool := 48 ≤ c && c ≤ 57

/-- Value of an ASCII digit code. -/
def digitVal (c : Nat) : Nat := c - 48

/-- Gregorian leap-year rule. -/
def isLeapYear (y : Nat) : Bool := y % 4 = 0 && (y % 100 ≠ 0 || y % 400 = 0)

/-- Number of days in a month. -/
def daysInMonth (y m : Nat) : Nat :=
  if m = 2 then (if isLeapYear y then 29 else 28)
  else if m = 4 || m = 6 || m = 9 || m = 11 then 30
  else 31

/-- Days since 1970-01-01 of a civil date (standard era computation). -/
def daysFromCivil (y m d : Nat) : Int :=
  let y' : Int := (y : Int) - (if m ≤ 2 then 1 else 0)
  let era : Int := y' / 400
  let yoe : Int := y' - era * 400
  let mp : Int := ((m : Int) + 9) % 12
  let doy : Int := (153 * mp + 2) / 5 + (d : Int) - 1
  let doe : Int := yoe * 365 + yoe / 4 - yoe / 100 + doy
  era * 146097 + doe - 719468

/-- Timestamp in seconds of a civil date-time. -/
def timestampOf (y mo d h mi s : Nat) : Int :=
  daysFromCivil y mo d * 86400 + (h : Int) * 3600 + (mi : Int) * 60 + (s : Int)

/-- `datetime.strptime(s, "%Y-%m-%d %H:%M:%S")`: `some` timestamp on a
well-formed date string, `none` (the `ValueError` case) otherwise. -/
def parseDate : List Nat → Option Int
  | [y1, y2, y3, y4, c1, m1, m2, c2, d1, d2, c3, h1, h2, c4, n1, n2, c5, s1, s2] =>
    if c1 = 45 && c2 = 45 && c3 = 32 && c4 = 58 && c5 = 58 &&
       ([y1, y2, y3, y4, m1, m2, d1, d2, h1, h2, n1, n2, s1, s2].all isDigit) then
      let y := ((digitVal y1 * 10 + digitVal y2) * 10 + digitVal y3) * 10 + digitVal y4
      let mo := digitVal m1 * 10 + digitVal m2
      let d := digitVal d1 * 10 + digitVal d2
      let h := digitVal h1 * 10 + digitVal h2
      let mi := digitVal n1 * 10 + digitVal n2
      let s := digitVal s1 * 10 + digitVal s2
      if 1 ≤ y && 1 ≤ mo && mo ≤ 12 && 1 ≤ d && d ≤ daysInMonth y mo &&
         h ≤ 23 && mi ≤ 59 && s ≤ 59 then
        some (timestampOf y mo d h mi s)
      else none
    else none
  | _ => none

/-- `random.sample(l, k)`: sampling without replacement, driven by an explicit
stream of indices (the source draws them from the ambient PRNG).  Defined for
every input; the source only calls it with `k ≤ |l|`. -/
def randomSample : List Nat → List α → Nat → List α
  | _, _, 0 => []
  | _, [], _ + 1 => []
  | picks, x :: xs, k + 1 =>
    let i := picks.headD 0 % (x :: xs).length
    (x :: xs).getD i x :: randomSample picks.tail ((x :: xs).eraseIdx i) k

theorem length_randomSample :
    ∀ (k : Nat) (picks : List Nat) (l : List α),
      (randomSample picks l k).length = min k l.length := by
  intro k
  induction k with
  | zero => intro picks l; simp [randomSample]
  | succ k ih =>
    intro picks l
    cases l with
    | nil => simp [randomSample]
    | cons x xs =>
      have hi : picks.headD 0 % (x :: xs).length < (x :: xs).length :=
        Nat.mod_lt _ (by simp)
      have he := List.length_eraseIdx_of_lt hi
      simp only [randomSample, List.length_cons, ih]
      simp only [List.length_cons] at he
      omega

/-! ## `src/repeat_customers` — data model

Embeds `src/repeat_customers/simulation/models.py` and the constants of
`src/repeat_customers/config.py` used by the engine.  The `role_desc`
attribute bag is modelled by the two entries the core logic reads,
`personality` and `criticality` (strings; every generated profile carries
both).  Fields never read by the embedded operations (names, menus, revenue,
visit tracking) are omitted.
-/

namespace RepeatCustomers

namespace Config

/-- `Config.LIMITED_ATTENTION` — reviews customers read initially. -/
def LIMITED_ATTENTION : Nat := 3

/-- `Config.SKEPTICAL_REVIEWS` — additional reviews read if skeptical. -/
def SKEPTICAL_REVIEWS : Nat := 3

/-- `Config.CUSTOMER_CRITICALITY` default. -/
def CUSTOMER_CRITICALITY : String := "medium"

end Config

/-- `Review` dataclass. -/
structure Review where
  review_id : String
  user_id : String
  business_id : String
  stars : ℚ
  text : String
  date : List Nat
  ordered_item : String
deriving DecidableEq

/-- `CustomerExperience` dataclass. -/
structure CustomerExperience where
  restaurant_id : String
  date : List Nat
  ordered_item : String
  stars_given : ℚ
  price_paid : ℚ
  was_satisfied : Bool
  review_text : String
  experience_quality : ℚ
deriving DecidableEq

/-- `Customer` dataclass (`role_desc` modelled by its two algorithmically
used entries). -/
structure Customer where
  customer_id : String
  name : String
  personality : String
  criticality : String
  theta : Option ℚ
  alpha : Option ℚ
  beta : Option ℚ
  experiences : List CustomerExperience
deriving DecidableEq

/-- `Customer.get_restaurant_preference`. -/
def Customer.get_restaurant_preference (c : Customer) (restaurant_id : String) : ℚ :=
  let restaurant_experiences :=
    c.experiences.filter (fun e => e.restaurant_id = restaurant_id)
  if restaurant_experiences.isEmpty then 0
  else
    let total_score :=
      (restaurant_experiences.map (fun e => if e.was_satisfied then (1 : ℚ) else -1/2)).sum
    total_score / restaurant_experiences.length

/-- `Customer.update_belief_beta_bernoulli`. -/
def Customer.update_belief_beta_bernoulli (c : Customer) (reviews : List Review) : ℚ :=
  match c.alpha, c.beta with
  | some alpha, some beta =>
    let positive_reviews := reviews.countP (fun r => decide ((4 : ℚ) ≤ r.stars))
    let total_reviews := reviews.length
    let negative_reviews := total_reviews - positive_reviews
    let posterior_alpha := alpha + positive_reviews
    let posterior_beta := beta + negative_reviews
    posterior_alpha / (posterior_alpha + posterior_beta)
  | _, _ => 1/2

/-- `Restaurant` (fields read by the embedded operations). -/
structure Restaurant where
  review_policy : String
  initial_reviews : List Review
  reviews : List Review

/-- `Restaurant.get_all_reviews`. -/
def Restaurant.get_all_reviews (rst : Restaurant) : List Review :=
  rst.initial_reviews ++ rst.reviews

/-- Boosted rating of one review — the loop body of
`Restaurant._get_recent_quality_boost_reviews` (`+0.5` inside 30 days of
`now`, `+0.25` inside 90 days, capped at `5.0`; parse failure keeps the raw
star value). -/
def boostedRating (now : Int) (r : Review) : ℚ :=
  match parseDate r.date with
  | some review_date =>
    let boosted_rating := r.stars
    let boosted_rating :=
      if now - 30 * 86400 ≤ review_date then boosted_rating + 1/2
      else if now - 90 * 86400 ≤ review_date then boosted_rating + 1/4
      else boosted_rating
    min boosted_rating 5
  | none => r.stars

/-- Python tuple comparison `(boosted_rating, date) < (boosted_rating', date')`
used as the sort key of the recent-quality-boost algorithm. -/
def boostDateLt (a b : Review × ℚ) : Bool :=
  decide (a.2 < b.2) || (decide (a.2 = b.2) && strLt a.1.date b.1.date)

/-- `Restaurant._get_recent_quality_boost_reviews`: boost each *generated*
review (note: `self.reviews` only — seed reviews are not included by the
source), sort by `(boosted_rating, date)` descending, drop the ratings.
The identical function appears verbatim in
`src/research_implementation/simulation/models.py`. -/
def Restaurant.get_recent_quality_boost_reviews (now : Int) (rst : Restaurant) :
    List Review :=
  let boosted_reviews := rst.reviews.map (fun r => (r, boostedRating now r))
  let boosted_reviews := sortRevBy boostDateLt boosted_reviews
  boosted_reviews.map Prod.fst

/-- `Restaurant.get_sorted_reviews` — the exposure-policy dispatcher.
`now` is the wall clock, `picks` drives the `random.sample` branch. -/
def Restaurant.get_sorted_reviews (now : Int) (picks : List Nat)
    (rst : Restaurant) (limit : Nat) : List Review :=
  let all_reviews := rst.get_all_reviews
  if rst.review_policy = "highest_rating" then
    (sortRevBy (fun a b => decide (a.stars < b.stars)) all_reviews).take limit
  else if rst.review_policy = "latest" ∨ rst.review_policy = "newest_first" then
    (sortRevBy (fun a b => strLt a.date b.date) all_reviews).take limit
  else if rst.review_policy = "recent_quality_boost" then
    (rst.get_recent_quality_boost_reviews now).take limit
  else if rst.review_policy = "random" then
    if all_reviews.length ≤ limit then all_reviews
    else randomSample picks all_reviews limit
  else
    (sortRevBy (fun a b => strLt a.date b.date) all_reviews).take limit

end RepeatCustomers

/-! ## Substring matching

`trait in personality`, `word in text` — Python's substring operator. -/

/-- `leadsWith a b`: `a` is an initial segment of `b`. -/
def leadsWith : List Nat → List Nat → Bool
  | [], _ => true
  | _ :: _, [] => false
  | a :: as, b :: bs => a = b && leadsWith as bs

/-- `containsSub needle hay`: Python's `needle in hay` on strings. -/
def containsSub (needle : List Nat) : List Nat → Bool
  | [] => leadsWith needle []
  | b :: bs => leadsWith needle (b :: bs) || containsSub needle bs

/-- Python `str.lower()` (ASCII range; all strings in the source are ASCII). -/
def toLowerCodes (s : List Nat) : List Nat :=
  s.map (fun c => if 65 ≤ c && c ≤ 90 then c + 32 else c)

namespace RepeatCustomers

/-- `Restaurant.get_overall_rating`. -/
def Restaurant.get_overall_rating (rst : Restaurant) : ℚ :=
  let all_reviews := rst.get_all_reviews
  if all_reviews.isEmpty then 0
  else (all_reviews.map Review.stars).sum / all_reviews.length

/-! ### `src/repeat_customers/simulation/engine.py` -/

/-- Result dictionary of `RepeatCustomerSimulation._calculate_skepticism`. -/
structure Skepticism where
  level : String
  score : ℚ
  concerns : List String
  will_investigate : Bool
  confidence_impact : ℚ
  personality_modifier : ℚ
deriving DecidableEq

/-- Sentiment word lists of `_calculate_skepticism`. -/
def positive_words : List String :=
  ["great", "excellent", "amazing", "love", "perfect", "wonderful", "delicious",
   "fantastic"]

/-- Negative sentiment word list of `_calculate_skepticism`. -/
def negative_words : List String :=
  ["terrible", "awful", "disappointed", "bad", "poor", "horrible", "worst"]

/-- `RepeatCustomerSimulation._calculate_skepticism`.  `now` is
`datetime.now()` of the outdated-reviews check.  Python's
`list(set(concerns))` deduplication is modelled by `List.dedup`. -/
def calculate_skepticism (customer : Customer) (reviews : List Review)
    (restaurant : Restaurant) (now : Int) : Skepticism :=
  if reviews.isEmpty then
    { level := "none", score := 0, concerns := [], will_investigate := false,
      confidence_impact := 0, personality_modifier := 1 }
  else
    let criticality := toLowerCodes (strCodes customer.criticality)
    let base_threshold : ℚ :=
      if criticality = strCodes "easy" then 7/10
      else if criticality = strCodes "critical" then 3/10
      else 1/2
    let personality_modifier : ℚ :=
      if criticality = strCodes "easy" then 1/2
      else if criticality = strCodes "critical" then 3/2
      else 1
    let stars := reviews.map Review.stars
    let avg_rating : ℚ := if stars.isEmpty then 0 else stars.sum / stars.length
    -- 1. suspiciously uniform distribution
    let c1 : Bool := stars.dedup.length ≤ 1 && reviews.length ≥ 3
    -- 2. low variance with extreme mean
    let variance : ℚ :=
      if stars.isEmpty then 0
      else (stars.map (fun s => (s - avg_rating) ^ 2)).sum / stars.length
    let c2 : Bool := variance < 1/2 && (avg_rating ≥ 9/2 || avg_rating ≤ 3/2)
    -- 3. sample vs overall rating mismatch
    let overall_rating := restaurant.get_overall_rating
    let c3 : Bool := |avg_rating - overall_rating| > 3/2
    -- 4. text/rating incongruence (first match only; both branches add the
    --    same concern and weight, so `any` over the disjunction is faithful)
    let c4 : Bool := reviews.any (fun r =>
      let text_lower := toLowerCodes (strCodes r.text)
      let has_positive_words := positive_words.any
        (fun w => containsSub (strCodes w) text_lower)
      let has_negative_words := negative_words.any
        (fun w => containsSub (strCodes w) text_lower)
      (r.stars ≥ 4 && has_negative_words && !has_positive_words) ||
      (r.stars ≤ 2 && has_positive_words && !has_negative_words))
    -- 5. outdated reviews (a bare `except: pass` skips the whole check if
    --    any date fails to parse)
    let parsed_dates : Option (List Int) := reviews.mapM (fun r => parseDate r.date)
    let c5 : Bool :=
      match parsed_dates with
      | some ds =>
        decide ((ds.countP (fun ts => decide ((now - ts).fdiv 86400 ≤ 30))) = 0) &&
        decide (reviews.length ≥ 3)
      | none => false
    let skepticism_score : ℚ :=
      (if c1 then 3/10 else 0) + (if c2 then 1/4 else 0) +
      (if c3 then 1/5 else 0) + (if c4 then 3/20 else 0) +
      (if c5 then 1/10 else 0)
    let concerns : List String :=
      ((if c1 then ["suspiciously_uniform_distribution"] else []) ++
       (if c2 then ["low_variance_extreme_mean"] else []) ++
       (if c3 then ["rating_comparison"] else []) ++
       (if c4 then ["text_rating_incongruence"] else []) ++
       (if c5 then ["outdated_feedback"] else [])).dedup
    let skepticism_score := skepticism_score * personality_modifier
    let skepticism_score := min skepticism_score 1
    let level : String :=
      if skepticism_score ≥ base_threshold then
        if skepticism_score ≥ 7/10 then "high"
        else if skepticism_score ≥ 2/5 then "medium"
        else "low"
      else "none"
    let will_investigate : Bool := skepticism_score ≥ base_threshold
    let confidence_impact := -skepticism_score * (3/10)
    { level := level, score := skepticism_score, concerns := concerns,
      will_investigate := will_investigate,
      confidence_impact := confidence_impact,
      personality_modifier := personality_modifier }

/-- Result of `RepeatCustomerSimulation._post_investigation_assessment`
(note: this engine's resolution dictionary has no confidence field). -/
structure PostInvestigation where
  resolved : Bool
  reason : String
  ongoing_doubt : Bool
deriving DecidableEq

/-- `RepeatCustomerSimulation._post_investigation_assessment`. -/
def post_investigation_assessment (initial_skepticism : Skepticism)
    (additional_reviews : List Review) : PostInvestigation :=
  if additional_reviews.isEmpty then
    { resolved := true, reason := "no_additional_reviews_available",
      ongoing_doubt := false }
  else
    let additional_stars := additional_reviews.map Review.stars
    if additional_stars.length > 0 then
      let additional_avg : ℚ := additional_stars.sum / additional_stars.length
      let additional_variance : ℚ :=
        (additional_stars.map (fun s => (s - additional_avg) ^ 2)).sum /
          additional_stars.length
      if additional_variance > 1/2 then
        { resolved := true, reason := "additional_reviews_show_variation",
          ongoing_doubt := false }
      else
        { resolved := false,
          reason := "additional_reviews_confirm_suspicious_pattern",
          ongoing_doubt := true }
    else
      { resolved := false, reason := "insufficient_additional_information",
        ongoing_doubt := true }

/-- `RepeatCustomerSimulation._get_reviews_for_customer`: the sample a
customer sees before any investigation. -/
def get_reviews_for_customer (now : Int) (picks : List Nat)
    (restaurant : Restaurant) : List Review :=
  restaurant.get_sorted_reviews now picks Config.LIMITED_ATTENTION

/-- The review sample assembled in `_customer_makes_choice`: the initial
bounded sample, extended by up to `SKEPTICAL_REVIEWS` additional reviews
when the customer investigates. -/
def reviews_seen_by_customer (now : Int) (picks picks2 : List Nat)
    (restaurant : Restaurant) (will_investigate : Bool) : List Review :=
  get_reviews_for_customer now picks restaurant ++
    (if will_investigate then
      restaurant.get_sorted_reviews now picks2 Config.SKEPTICAL_REVIEWS
    else [])

end RepeatCustomers

/-- Maximum of a list of timestamps (Python `max`; source calls it only on
non-empty lists). -/
def listMax (l : List Int) : Int := l.foldl max (l.headD 0)

/-- Minimum of a list of timestamps (Python `min`). -/
def listMin (l : List Int) : Int := l.foldl min (l.headD 0)

/-! ## `src/research_implementation` — models and engine

Embeds `Customer.update_belief_beta_bernoulli` of
`src/research_implementation/simulation/models.py` and
`RestaurantSimulation._assess_skepticism` /
`_assess_post_investigation_effects` of
`src/research_implementation/simulation/engine.py`.  The engine's
`Restaurant.get_sorted_reviews` and `_get_recent_quality_boost_reviews` are
verbatim identical to the `repeat_customers` versions embedded above.
-/

namespace ResearchImplementation

/-- `Review` dataclass (also the shape of the review dictionaries handed to
`_assess_skepticism`). -/
structure Review where
  review_id : String
  user_id : String
  business_id : String
  stars : ℚ
  text : String
  date : List Nat
  ordered_item : String
deriving DecidableEq

/-- `Customer` dataclass (`role_desc` modelled by its two algorithmically
used entries, `personality` and `criticality`). -/
structure Customer where
  customer_id : String
  name : String
  personality : String
  criticality : String
  theta : Option ℚ
  alpha : Option ℚ
  beta : Option ℚ
deriving DecidableEq

/-- `Customer.update_belief_beta_bernoulli` (verbatim identical in
`src/repeat_customers/simulation/models.py`). -/
def Customer.update_belief_beta_bernoulli (c : Customer) (reviews : List Review) : ℚ :=
  match c.alpha, c.beta with
  | some alpha, some beta =>
    let positive_reviews := reviews.countP (fun r => decide ((4 : ℚ) ≤ r.stars))
    let total_reviews := reviews.length
    let negative_reviews := total_reviews - positive_reviews
    let posterior_alpha := alpha + positive_reviews
    let posterior_beta := beta + negative_reviews
    posterior_alpha / (posterior_alpha + posterior_beta)
  | _, _ => 1/2

/-- The `rating_comparison` dictionary optionally handed to
`_assess_skepticism` (entries read by the scoring logic). -/
structure RatingComparison where
  skepticism_triggers : List String
  abs_difference : ℚ
deriving DecidableEq

/-- Result dictionary of `RestaurantSimulation._assess_skepticism`.  The
empty-sample early return carries no `score`, `personality_modifier`,
`criticality_modifier` or `rating_comparison_modifier` keys; those fields
are therefore `Option`s, `none` meaning "key absent". -/
structure Assessment where
  level : String
  concerns : List String
  will_investigate : Bool
  confidence_impact : ℚ
  score : Option ℤ
  personality_modifier : Option ℤ
  criticality_modifier : Option ℤ
  rating_comparison_modifier : Option ℤ
deriving DecidableEq

/-- Skeptical-trait list of `_assess_skepticism`. -/
def skeptical_personalities : List String :=
  ["analytical", "meticulous", "discerning", "strict", "picky", "reserved",
   "thoughtful", "critical", "demanding", "perfectionist", "skeptical",
   "cautious", "exacting", "uncompromising", "fastidious", "particular",
   "discriminating", "selective"]

/-- Trusting-trait list of `_assess_skepticism`. -/
def trusting_personalities : List String :=
  ["easy-going", "easygoing", "relaxed", "carefree", "cheerful", "optimistic",
   "friendly", "outgoing", "open-minded", "balanced", "reasonable",
   "fair-minded"]

/-- Per-trigger weight of the rating-comparison analysis (the `for trigger`
loop of `_assess_skepticism`). -/
def triggerWeight (trigger : String) : ℤ :=
  if trigger = "suspiciously_high_sample" then 2
  else if trigger = "suspiciously_low_sample" then 2
  else if trigger = "cherry_picked_positive_reviews" then 3
  else if trigger = "cherry_picked_negative_reviews" then 3
  else if trigger = "small_sample_with_discrepancy" then 1
  else 0

/-- Concern recorded for a recognized rating-comparison trigger. -/
def triggerConcern (trigger : String) : List String :=
  if trigger = "suspiciously_high_sample" then ["rating_discrepancy_high"]
  else if trigger = "suspiciously_low_sample" then ["rating_discrepancy_low"]
  else if trigger = "cherry_picked_positive_reviews" then ["cherry_picked_positive"]
  else if trigger = "cherry_picked_negative_reviews" then ["cherry_picked_negative"]
  else if trigger = "small_sample_with_discrepancy" then ["small_sample_discrepancy"]
  else []

/-- `RestaurantSimulation._assess_skepticism`.  `current_sim_date` is
`simulation_start_date + timedelta(days=current_simulation_day)` in seconds;
`u` is the `random.random()` draw of the investigate decision. -/
def assess_skepticism (customer : Customer) (reviews : List Review)
    (rating_comparison : Option RatingComparison)
    (current_sim_date : Int) (u : ℚ) : Assessment :=
  if reviews.isEmpty then
    { level := "none", concerns := [], will_investigate := false,
      confidence_impact := 0, score := none, personality_modifier := none,
      criticality_modifier := none, rating_comparison_modifier := none }
  else
    -- 1. pattern analysis
    let five_star_count := reviews.countP (fun r => decide (r.stars = 5))
    let low_star_count := reviews.countP (fun r => decide (r.stars ≤ 2))
    let five_star_ratio : ℚ := (five_star_count : ℚ) / reviews.length
    let patternConcerns : List String :=
      if five_star_ratio > 9/10 then ["suspiciously_perfect_ratings"]
      else if five_star_ratio > 4/5 then ["too_many_perfect_ratings"]
      else []
    let patternScore : ℤ :=
      if five_star_ratio > 9/10 then 3
      else if five_star_ratio > 4/5 then 2
      else 0
    let negOk : Bool := decide (low_star_count = 0) && decide (reviews.length ≥ 5)
    let negConcerns : List String := if negOk then ["no_negative_reviews"] else []
    let negScore : ℤ := if negOk then 1 else 0
    -- 2. recency analysis on the simulation timeline
    let six_months_ago := current_sim_date - 180 * 86400
    let one_year_ago := current_sim_date - 365 * 86400
    let parsed_dates : Option (List Int) := reviews.mapM (fun r => parseDate r.date)
    let recencyConcerns : List String :=
      match parsed_dates with
      | some review_dates =>
        let most_recent_date := listMax review_dates
        let oldest_date := listMin review_dates
        let date_range := (most_recent_date - oldest_date).fdiv 86400
        (if most_recent_date < one_year_ago then ["very_outdated_reviews"]
         else if most_recent_date < six_months_ago then ["outdated_reviews"]
         else []) ++
        (if decide (reviews.length ≥ 5) && decide (date_range ≤ 7) then
          ["suspicious_review_clustering"] else [])
      | none => ["date_parsing_issues"]
    let recencyScore : ℤ :=
      match parsed_dates with
      | some review_dates =>
        let most_recent_date := listMax review_dates
        let oldest_date := listMin review_dates
        let date_range := (most_recent_date - oldest_date).fdiv 86400
        (if most_recent_date < one_year_ago then 3
         else if most_recent_date < six_months_ago then 1
         else 0) +
        (if decide (reviews.length ≥ 5) && decide (date_range ≤ 7) then 2 else 0)
      | none => 1
    -- 3. sample size analysis
    let sizeOk : Bool := decide (reviews.length < 3)
    let sizeConcerns : List String := if sizeOk then ["too_few_reviews"] else []
    let sizeScore : ℤ := if sizeOk then 1 else 0
    -- 4. rating diversity analysis
    let unique_ratings := (reviews.map Review.stars).dedup
    let divConcerns : List String :=
      if unique_ratings.length = 1 then ["no_rating_diversity"]
      else if unique_ratings.length ≤ 2 then ["limited_rating_diversity"]
      else []
    let divScore : ℤ :=
      if unique_ratings.length = 1 then 2
      else if unique_ratings.length ≤ 2 then 1
      else 0
    -- 5. personality-based modifier
    let personality := toLowerCodes (strCodes customer.personality)
    let matching_skeptical := skeptical_personalities.filter
      (fun trait => containsSub (strCodes trait) personality)
    let matching_trusting := trusting_personalities.filter
      (fun trait => containsSub (strCodes trait) personality)
    let personality_modifier : ℤ :=
      if !matching_skeptical.isEmpty then 2
      else if !matching_trusting.isEmpty then -1
      else 0
    -- criticality level modifier
    let criticality := customer.criticality
    let criticality_modifier : ℤ :=
      if criticality = "easy" then -2
      else if criticality = "critical" then 3
      else 0
    -- 6. rating comparison analysis
    let rcConcerns : List String :=
      match rating_comparison with
      | some rc =>
        (rc.skepticism_triggers.map triggerConcern).flatten ++
        (if decide (1/2 ≤ rc.abs_difference) && decide (rc.abs_difference < 1) &&
            rc.skepticism_triggers.isEmpty then
          ["moderate_rating_discrepancy"] else [])
      | none => []
    let rating_comparison_modifier : ℤ :=
      match rating_comparison with
      | some rc =>
        (rc.skepticism_triggers.map triggerWeight).sum +
        (if decide (1/2 ≤ rc.abs_difference) && decide (rc.abs_difference < 1) &&
            rc.skepticism_triggers.isEmpty then 1 else 0)
      | none => 0
    let skepticism_score : ℤ := patternScore + negScore + recencyScore + sizeScore + divScore
    let final_score : ℤ :=
      max 0 (skepticism_score + personality_modifier + criticality_modifier +
        rating_comparison_modifier)
    let concerns := patternConcerns ++ negConcerns ++ recencyConcerns ++
      sizeConcerns ++ divConcerns ++ rcConcerns
    let level : String :=
      if final_score ≥ 5 then "high"
      else if final_score ≥ 3 then "medium"
      else if final_score ≥ 1 then "low"
      else "none"
    let will_investigate : Bool :=
      if final_score ≥ 5 then decide (u < 4/5)
      else if final_score ≥ 3 then decide (u < 3/5)
      else if final_score ≥ 1 then decide (u < 3/10)
      else false
    let confidence_impact : ℚ :=
      if final_score ≥ 5 then -3/10
      else if final_score ≥ 3 then -3/20
      else if final_score ≥ 1 then -1/20
      else 0
    { level := level, concerns := concerns,
      will_investigate := will_investigate,
      confidence_impact := confidence_impact,
      score := some final_score,
      personality_modifier := some personality_modifier,
      criticality_modifier := some criticality_modifier,
      rating_comparison_modifier := some rating_comparison_modifier }

/-- Resolution dictionary of
`RestaurantSimulation._assess_post_investigation_effects`. -/
structure Resolution where
  resolved : Bool
  confidence_change : ℚ
  ongoing_doubt : Bool
  reason : String
deriving DecidableEq

/-- `RestaurantSimulation._assess_post_investigation_effects` (verbatim
identical in `src/reviews_orientation/simulation/engine.py`).  `u` is the
`random.random()` draw of the anxious-personality branch. -/
def assess_post_investigation_effects (customer : Customer)
    (initial_skepticism : Assessment) (additional_reviews : List Review)
    (u : ℚ) : Resolution :=
  if additional_reviews.isEmpty then
    { resolved := false,
      confidence_change := initial_skepticism.confidence_impact,
      ongoing_doubt := true, reason := "no_additional_reviews_found" }
  else
    let additional_avg_rating : ℚ :=
      (additional_reviews.map Review.stars).sum / additional_reviews.length
    let has_negative_reviews : Bool :=
      additional_reviews.any (fun r => decide (r.stars ≤ 2))
    let personality := toLowerCodes (strCodes customer.personality)
    -- the default case reached by falling off a branch without returning
    let defaultCase : Resolution :=
      if additional_avg_rating ≥ 7/2 then
        { resolved := true,
          confidence_change := max 0 (initial_skepticism.confidence_impact + 3/20),
          ongoing_doubt := false, reason := "general_concerns_addressed" }
      else
        { resolved := false,
          confidence_change := initial_skepticism.confidence_impact - 1/10,
          ongoing_doubt := true, reason := "additional_reviews_concerning" }
    if containsSub (strCodes "analytical") personality ||
       containsSub (strCodes "meticulous") personality then
      if has_negative_reviews && decide (additional_avg_rating < 7/2) then
        { resolved := true, confidence_change := -1/5,
          ongoing_doubt := false, reason := "analytical_confirmed_concerns" }
      else if additional_avg_rating ≥ 4 then
        { resolved := true, confidence_change := 1/10,
          ongoing_doubt := false, reason := "analytical_concerns_resolved" }
      else defaultCase
    else if containsSub (strCodes "picky") personality ||
            containsSub (strCodes "strict") personality then
      { resolved := false,
        confidence_change := initial_skepticism.confidence_impact - 1/10,
        ongoing_doubt := true, reason := "picky_never_satisfied" }
    else if containsSub (strCodes "discerning") personality then
      if additional_avg_rating ≥ 9/2 then
        { resolved := true, confidence_change := 1/20,
          ongoing_doubt := false, reason := "discerning_quality_confirmed" }
      else
        { resolved := false,
          confidence_change := initial_skepticism.confidence_impact,
          ongoing_doubt := true, reason := "discerning_quality_insufficient" }
    else if ["shy", "reserved", "thoughtful"].any
        (fun trait => containsSub (strCodes trait) personality) then
      if u < 7/10 then
        { resolved := false,
          confidence_change := initial_skepticism.confidence_impact - 1/20,
          ongoing_doubt := true, reason := "anxious_persistent_worry" }
      else defaultCase
    else defaultCase

end ResearchImplementation

/-! ## `src/reviews_orientation` — engine

Embeds `RestaurantSimulation._assess_skepticism` of
`src/reviews_orientation/simulation/engine.py`.  Its
`_assess_post_investigation_effects` is verbatim identical to the
`research_implementation` version embedded above.  The `Review` dataclass of
`src/reviews_orientation/simulation/models.py` has the same fields as the
`research_implementation` one.
-/

namespace ReviewsOrientation

/-- `Review` dataclass (same fields as the `research_implementation` one). -/
abbrev Review := ResearchImplementation.Review

/-- `Customer` dataclass (same `role_desc` modelling). -/
abbrev Customer := ResearchImplementation.Customer

/-- Result dictionary of this engine's `_assess_skepticism`.  The
empty-sample early return carries no `score` or `personality_modifier`
keys, hence the `Option`s. -/
structure Assessment where
  level : String
  concerns : List String
  will_investigate : Bool
  confidence_impact : ℚ
  score : Option ℤ
  personality_modifier : Option ℤ
deriving DecidableEq

/-- Pattern-analysis concerns of this engine's `_assess_skepticism`: note the
source checks `five_star_ratio > 0.8` *before* `five_star_ratio > 0.9`. -/
def fiveStarConcerns (reviews : List Review) : List String :=
  let five_star_count := reviews.countP (fun r => decide (r.stars = 5))
  let five_star_ratio : ℚ := (five_star_count : ℚ) / reviews.length
  if five_star_ratio > 4/5 then ["too_many_perfect_ratings"]
  else if five_star_ratio > 9/10 then ["suspiciously_perfect_ratings"]
  else []

/-- Pattern-analysis score contribution of this engine's
`_assess_skepticism` (same branch order as `fiveStarConcerns`). -/
def fiveStarScore (reviews : List Review) : ℤ :=
  let five_star_count := reviews.countP (fun r => decide (r.stars = 5))
  let five_star_ratio : ℚ := (five_star_count : ℚ) / reviews.length
  if five_star_ratio > 4/5 then 2
  else if five_star_ratio > 9/10 then 3
  else 0

/-- Skeptical-trait list of this engine. -/
def skeptical_personalities : List String :=
  ["analytical", "meticulous", "discerning", "strict", "picky", "reserved",
   "thoughtful"]

/-- Trusting-trait list of this engine. -/
def trusting_personalities : List String :=
  ["easy-going", "easygoing", "relaxed", "carefree", "cheerful", "optimistic",
   "friendly", "outgoing"]

/-- `RestaurantSimulation._assess_skepticism` of the reviews_orientation
engine.  The wall-clock thresholds `six_months_ago`/`one_year_ago` (computed
upstream from `datetime.now()` by calendar-field arithmetic) are passed in;
`u` is the `random.random()` draw of the investigate decision. -/
def assess_skepticism (customer : Customer) (reviews : List Review)
    (six_months_ago one_year_ago : Int) (u : ℚ) : Assessment :=
  if reviews.isEmpty then
    { level := "none", concerns := [], will_investigate := false,
      confidence_impact := 0, score := none, personality_modifier := none }
  else
    -- 1. pattern analysis
    let patternConcerns := fiveStarConcerns reviews
    let patternScore := fiveStarScore reviews
    -- 2. recency analysis (`max` over `strptime` of every date; any parse
    --    failure raises before the comparison)
    let parsed_dates : Option (List Int) := reviews.mapM (fun r => parseDate r.date)
    let recencyConcerns : List String :=
      match parsed_dates with
      | some review_dates =>
        let most_recent_date := listMax review_dates
        if most_recent_date < one_year_ago then ["very_outdated_reviews"]
        else if most_recent_date < six_months_ago then ["outdated_reviews"]
        else []
      | none => ["date_parsing_issues"]
    let recencyScore : ℤ :=
      match parsed_dates with
      | some review_dates =>
        let most_recent_date := listMax review_dates
        if most_recent_date < one_year_ago then 3
        else if most_recent_date < six_months_ago then 1
        else 0
      | none => 1
    -- 3. sample size analysis
    let sizeOk : Bool := decide (reviews.length < 3)
    let sizeConcerns : List String := if sizeOk then ["too_few_reviews"] else []
    let sizeScore : ℤ := if sizeOk then 1 else 0
    -- 4. rating diversity analysis
    let unique_ratings := (reviews.map ResearchImplementation.Review.stars).dedup
    let divConcerns : List String :=
      if unique_ratings.length = 1 then ["no_rating_diversity"] else []
    let divScore : ℤ := if unique_ratings.length = 1 then 2 else 0
    -- 5. personality-based modifier
    let personality := toLowerCodes (strCodes customer.personality)
    let personality_modifier : ℤ :=
      if skeptical_personalities.any
          (fun trait => containsSub (strCodes trait) personality) then 2
      else if trusting_personalities.any
          (fun trait => containsSub (strCodes trait) personality) then -1
      else 0
    let final_score : ℤ :=
      max 0 (patternScore + recencyScore + sizeScore + divScore +
        personality_modifier)
    let concerns := patternConcerns ++ recencyConcerns ++ sizeConcerns ++
      divConcerns
    let level : String :=
      if final_score ≥ 5 then "high"
      else if final_score ≥ 3 then "medium"
      else if final_score ≥ 1 then "low"
      else "none"
    let will_investigate : Bool :=
      if final_score ≥ 5 then decide (u < 4/5)
      else if final_score ≥ 3 then decide (u < 3/5)
      else if final_score ≥ 1 then decide (u < 3/10)
      else false
    let confidence_impact : ℚ :=
      if final_score ≥ 5 then -3/10
      else if final_score ≥ 3 then -3/20
      else if final_score ≥ 1 then -1/20
      else 0
    { level := level, concerns := concerns,
      will_investigate := will_investigate,
      confidence_impact := confidence_impact,
      score := some final_score,
      personality_modifier := some personality_modifier }

end ReviewsOrientation

/-! ## Claims -/

/-- A concrete review (used by witnesses and counterexamples). -/
def RepeatCustomers.mkReview (stars : ℚ) (date : String) : RepeatCustomers.Review :=
  { review_id := "r", user_id := "u", business_id := "A", stars := stars,
    text := "", date := strCodes date, ordered_item := "" }

namespace RepeatCustomers

theorem length_get_recent_quality_boost_reviews (now : Int) (rst : Restaurant) :
    (rst.get_recent_quality_boost_reviews now).length = rst.reviews.length := by
  simp [Restaurant.get_recent_quality_boost_reviews, length_sortRevBy]

/-- C1 (counterexample): under the `recent_quality_boost` policy a vendor
with one seed review and no generated reviews yields an empty selection at
`limit = 1`, not `min(N, limit) = 1` — the boost algorithm iterates over
`self.reviews` only and never sees `initial_reviews`. -/
theorem get_sorted_reviews_boost_drops_seed_reviews :
    (Restaurant.get_sorted_reviews 0 []
      { review_policy := "recent_quality_boost",
        initial_reviews := [mkReview 5 "2024-01-01 10:00:00"], reviews := [] }
      1).length = 0 ∧
    min 1 (Restaurant.get_all_reviews
      { review_policy := "recent_quality_boost",
        initial_reviews := [mkReview 5 "2024-01-01 10:00:00"], reviews := [] }).length
      = 1 := by
  constructor
  · rfl
  · rfl

/-- C1 (amended): `get_sorted_reviews(limit)` returns exactly
`min(limit, N)` reviews — with `N` the combined seed + generated review count
— for the `highest_rating`, `latest`/`newest_first`, `random` and
unknown-policy-fallback branches; under `recent_quality_boost` it instead
returns `min(limit, number of generated reviews)`, because that branch draws
from `self.reviews` only. -/
theorem get_sorted_reviews_length (now : Int) (picks : List Nat)
    (rst : Restaurant) (limit : Nat) :
    (rst.get_sorted_reviews now picks limit).length =
      if rst.review_policy = "recent_quality_boost" then
        min limit rst.reviews.length
      else
        min limit rst.get_all_reviews.length := by
  unfold Restaurant.get_sorted_reviews
  by_cases h1 : rst.review_policy = "highest_rating"
  · simp [h1, length_sortRevBy]
  · by_cases h2 : rst.review_policy = "latest" ∨ rst.review_policy = "newest_first"
    · have hne : ¬ rst.review_policy = "recent_quality_boost" := by
        rcases h2 with h2 | h2 <;> simp [h2]
      simp [h1, h2, hne, length_sortRevBy]
    · by_cases h3 : rst.review_policy = "recent_quality_boost"
      · simp [h1, h2, h3, length_get_recent_quality_boost_reviews]
      · by_cases h4 : rst.review_policy = "random"
        · simp only [h1, h2, h3, h4, if_true, if_false]
          by_cases h5 : rst.get_all_reviews.length ≤ limit
          · simp [h5, Nat.min_eq_right h5]
          · simp [h5, length_randomSample]
        · simp [h1, h2, h3, h4, length_sortRevBy]

end RepeatCustomers

namespace RepeatCustomers

/-- C9: the selection returned by any policy branch never exceeds `limit`. -/
theorem get_sorted_reviews_length_le (now : Int) (picks : List Nat)
    (rst : Restaurant) (limit : Nat) :
    (rst.get_sorted_reviews now picks limit).length ≤ limit := by
  rw [get_sorted_reviews_length]
  split <;> exact Nat.min_le_left _ _

/-- C9: a customer's visible review sample is hard-capped at
`LIMITED_ATTENTION` before investigation and at
`LIMITED_ATTENTION + SKEPTICAL_REVIEWS` after investigation, for every
vendor state, clock, sampling randomness and investigation outcome. -/
theorem bounded_attention (now : Int) (picks picks2 : List Nat)
    (rst : Restaurant) (will_investigate : Bool) :
    (get_reviews_for_customer now picks rst).length ≤ Config.LIMITED_ATTENTION ∧
    (reviews_seen_by_customer now picks picks2 rst will_investigate).length ≤
      Config.LIMITED_ATTENTION + Config.SKEPTICAL_REVIEWS := by
  constructor
  · exact get_sorted_reviews_length_le now picks rst _
  · unfold reviews_seen_by_customer
    rw [List.length_append]
    have h1 := get_sorted_reviews_length_le now picks rst Config.LIMITED_ATTENTION
    cases will_investigate with
    | false =>
      simp only [if_false, List.length_nil, Bool.false_eq_true]
      unfold get_reviews_for_customer
      omega
    | true =>
      simp only [if_true]
      have h2 := get_sorted_reviews_length_le now picks2 rst Config.SKEPTICAL_REVIEWS
      unfold get_reviews_for_customer
      omega

theorem sum_satisfaction_map (l : List CustomerExperience) :
    (l.map (fun e => if e.was_satisfied then (1 : ℚ) else -1/2)).sum =
      (l.countP (fun e => e.was_satisfied)) * 1 +
      (l.countP (fun e => !e.was_satisfied)) * (-1/2) := by
  induction l with
  | nil => simp
  | cons e es ih =>
    simp only [List.map_cons, List.sum_cons, ih, List.countP_cons]
    by_cases h : e.was_satisfied
    · simp only [h, if_true, Bool.not_true, if_false]
      push_cast
      ring
    · simp only [h, if_false, Bool.not_false, if_true, Bool.false_eq_true]
      push_cast
      ring

/-- C8: `get_restaurant_preference` returns `0.0` for a vendor with no past
experiences, and otherwise the arithmetic mean of `+1.0` per satisfied and
`−0.5` per unsatisfied past visit to that vendor. -/
theorem get_restaurant_preference_spec (c : Customer) (rid : String) (s n : ℕ)
    (hs : s = (c.experiences.filter (fun e => e.restaurant_id = rid)).countP
      (fun e => e.was_satisfied))
    (hn : n = (c.experiences.filter (fun e => e.restaurant_id = rid)).countP
      (fun e => !e.was_satisfied)) :
    ((c.experiences.filter (fun e => e.restaurant_id = rid)).isEmpty →
      c.get_restaurant_preference rid = 0) ∧
    (¬ (c.experiences.filter (fun e => e.restaurant_id = rid)).isEmpty →
      c.get_restaurant_preference rid = ((s : ℚ) * 1 + (n : ℚ) * (-1/2)) / (s + n)) := by
  constructor
  · intro h
    simp [Customer.get_restaurant_preference, h]
  · intro h
    have hlen : (c.experiences.filter (fun e => e.restaurant_id = rid)).length = s + n := by
      rw [hs, hn]
      rw [List.length_eq_countP_add_countP (fun e => e.was_satisfied)]
      congr 1
      apply List.countP_congr
      intro e _
      simp
    simp only [Customer.get_restaurant_preference, h, if_false, Bool.false_eq_true]
    rw [sum_satisfaction_map, ← hs, ← hn, hlen]
    push_cast
    ring_nf

/-- C8 witness: 3 satisfied and 1 unsatisfied visit to vendor `"X"` give
preference exactly `0.625`. -/
def prefExperience (sat : Bool) : CustomerExperience :=
  { restaurant_id := "X", date := [], ordered_item := "", stars_given := 5,
    price_paid := 20, was_satisfied := sat, review_text := "",
    experience_quality := 1/2 }

/-- A customer with 3 satisfied and 1 unsatisfied visit to vendor `"X"`. -/
def prefCustomer : Customer :=
  { customer_id := "c", name := "c", personality := "", criticality := "medium",
    theta := none, alpha := none, beta := none,
    experiences := [prefExperience true, prefExperience true,
      prefExperience true, prefExperience false] }

theorem get_restaurant_preference_spec_witness :
    prefCustomer.get_restaurant_preference "X" = 5/8 := by
  have h := (get_restaurant_preference_spec prefCustomer "X" 3 1 (by rfl) (by rfl)).2
    (by decide)
  rw [h]
  norm_num

end RepeatCustomers

namespace ResearchImplementation

/-- C4: with prior `(alpha, beta)` set, the Beta-Bernoulli update over a
sample with `p` reviews of at least 4 stars and `n` reviews below 4 stars
returns exactly `(alpha + p) / (alpha + p + beta + n)`.  (The
`repeat_customers` copy of the function is verbatim identical.) -/
theorem update_belief_posterior_mean (c : Customer) (reviews : List Review)
    (a b : ℚ) (p n : ℕ)
    (ha : c.alpha = some a) (hb : c.beta = some b)
    (hp : p = reviews.countP (fun r => decide ((4 : ℚ) ≤ r.stars)))
    (hn : n = reviews.countP (fun r => decide (r.stars < (4 : ℚ)))) :
    c.update_belief_beta_bernoulli reviews = (a + p) / (a + p + b + n) := by
  have hlen : reviews.length =
      reviews.countP (fun r => decide ((4 : ℚ) ≤ r.stars)) +
      reviews.countP (fun r => decide (r.stars < (4 : ℚ))) := by
    rw [List.length_eq_countP_add_countP (fun r => decide ((4 : ℚ) ≤ r.stars))]
    congr 1
    apply List.countP_congr
    intro r _
    simp [not_le]
  simp only [Customer.update_belief_beta_bernoulli, ha, hb]
  have hsub : reviews.length - reviews.countP (fun r => decide ((4 : ℚ) ≤ r.stars)) = n := by
    omega
  rw [hsub, ← hp]
  have : (a + p) + (b + n) = a + p + b + n := by ring
  rw [this]

/-- C4 witness: prior `(1, 1)` and a sample `[5★, 5★, 2★]` give posterior
mean `(1+2)/(1+2+1+1) = 3/5`. -/
def conviCustomer : Customer :=
  { customer_id := "c", name := "c", personality := "", criticality := "medium",
    theta := none, alpha := some 1, beta := some 1 }

/-- Concrete review sample for the C4 witness. -/
def conviReviews : List Review :=
  [{ review_id := "1", user_id := "u", business_id := "A", stars := 5,
     text := "", date := strCodes "2024-01-01 10:00:00", ordered_item := "" },
   { review_id := "2", user_id := "u", business_id := "A", stars := 5,
     text := "", date := strCodes "2024-01-02 10:00:00", ordered_item := "" },
   { review_id := "3", user_id := "u", business_id := "A", stars := 2,
     text := "", date := strCodes "2024-01-03 10:00:00", ordered_item := "" }]

theorem update_belief_posterior_mean_witness :
    conviCustomer.update_belief_beta_bernoulli conviReviews = 3/5 := by
  have h := update_belief_posterior_mean conviCustomer conviReviews 1 1 2 1
    (by rfl) (by rfl) (by decide) (by decide)
  rw [h]
  norm_num

end ResearchImplementation

/-- A concrete initial skepticism assessment of the repeat_customers engine
(level medium, score 0.5) used by the C5 counterexample. -/
def RepeatCustomers.someSkepticism : RepeatCustomers.Skepticism :=
  { level := "medium", score := 1/2, concerns := [], will_investigate := true,
    confidence_impact := -3/20, personality_modifier := 1 }

/-- C5 (counterexample): the repeat_customers post-investigation resolver,
called with an empty additional-review sample, returns `resolved = true` and
`ongoing_doubt = false` — not the unresolved/doubt-persists outcome the claim
asserts for every resolver. -/
theorem post_investigation_empty_repeat_counterexample :
    (RepeatCustomers.post_investigation_assessment RepeatCustomers.someSkepticism []).resolved
        = true ∧
    (RepeatCustomers.post_investigation_assessment RepeatCustomers.someSkepticism []).ongoing_doubt
        = false := by
  constructor
  · rfl
  · rfl

/-- C5 (amended): on an empty additional-review sample the
research_implementation resolver (and its verbatim copy in
reviews_orientation) returns unresolved with doubt persisting and confidence
change equal to the initial assessment's confidence impact; the
repeat_customers resolver instead reports the investigation as resolved with
no ongoing doubt (reason `no_additional_reviews_available`, no confidence
field at all). -/
theorem post_investigation_empty_reviews
    (customer : ResearchImplementation.Customer)
    (initial : ResearchImplementation.Assessment) (u : ℚ)
    (initial' : RepeatCustomers.Skepticism) :
    ResearchImplementation.assess_post_investigation_effects customer initial [] u =
      { resolved := false, confidence_change := initial.confidence_impact,
        ongoing_doubt := true, reason := "no_additional_reviews_found" } ∧
    RepeatCustomers.post_investigation_assessment initial' [] =
      { resolved := true, reason := "no_additional_reviews_available",
        ongoing_doubt := false } := by
  constructor
  · rfl
  · rfl

/-- C7: on an empty shown-review sample, every assessor returns level
`"none"` with `will_investigate = false` and zero confidence impact,
regardless of all customer attributes.  The repeat_customers assessor also
reports `score = 0.0` as the claim states, but the research_implementation
assessor's early return carries *no* `score` entry at all (`none` here) —
even though `engine.py` later reads `result["score"]` unconditionally — so
the claimed `score = 0` is the evident intent and the missing key a slip. -/
theorem empty_reviews_assessment
    (customer : ResearchImplementation.Customer)
    (rating_comparison : Option ResearchImplementation.RatingComparison)
    (current_sim_date : Int) (u : ℚ)
    (customer' : RepeatCustomers.Customer)
    (restaurant' : RepeatCustomers.Restaurant) (now' : Int) :
    (ResearchImplementation.assess_skepticism customer [] rating_comparison
        current_sim_date u).level = "none" ∧
    (ResearchImplementation.assess_skepticism customer [] rating_comparison
        current_sim_date u).will_investigate = false ∧
    (ResearchImplementation.assess_skepticism customer [] rating_comparison
        current_sim_date u).confidence_impact = 0 ∧
    (ResearchImplementation.assess_skepticism customer [] rating_comparison
        current_sim_date u).score = none ∧
    (RepeatCustomers.calculate_skepticism customer' [] restaurant' now').level = "none" ∧
    (RepeatCustomers.calculate_skepticism customer' [] restaurant' now').will_investigate
        = false ∧
    (RepeatCustomers.calculate_skepticism customer' [] restaurant' now').score = 0 := by
  refine ⟨rfl, rfl, rfl, rfl, rfl, rfl, rfl⟩

namespace ResearchImplementation

/-- C6: with the review sample, personality and every other input held
fixed, raising the criticality dial from `easy` to `medium` to `critical`
never decreases the final skepticism score (the modifier is `−2`/`0`/`+3`
and the final score is the zero-floored sum of signals and modifiers).
`score.getD 0` reads the returned score, `0` standing for the score-free
empty-sample assessment. -/
theorem skepticism_monotone_in_criticality
    (cid nm pers : String) (theta alpha beta : Option ℚ)
    (reviews : List Review) (rating_comparison : Option RatingComparison)
    (current_sim_date : Int) (u : ℚ) :
    ((assess_skepticism ⟨cid, nm, pers, "easy", theta, alpha, beta⟩ reviews
        rating_comparison current_sim_date u).score.getD 0 ≤
      (assess_skepticism ⟨cid, nm, pers, "medium", theta, alpha, beta⟩ reviews
        rating_comparison current_sim_date u).score.getD 0) ∧
    ((assess_skepticism ⟨cid, nm, pers, "medium", theta, alpha, beta⟩ reviews
        rating_comparison current_sim_date u).score.getD 0 ≤
      (assess_skepticism ⟨cid, nm, pers, "critical", theta, alpha, beta⟩ reviews
        rating_comparison current_sim_date u).score.getD 0) := by
  by_cases hemp : reviews.isEmpty
  · simp [assess_skepticism, hemp]
  · constructor
    · simp only [assess_skepticism, hemp, if_false, Bool.false_eq_true,
        Option.getD_some]
      apply max_le_max (le_refl 0)
      simp only [String.reduceEq, if_false, if_true, reduceIte]
      omega
    · simp only [assess_skepticism, hemp, if_false, Bool.false_eq_true,
        Option.getD_some]
      apply max_le_max (le_refl 0)
      simp only [String.reduceEq, if_false, if_true, reduceIte]
      omega

end ResearchImplementation

namespace ReviewsOrientation

theorem fiveStarConcerns_no_suspicious (reviews : List Review) :
    "suspiciously_perfect_ratings" ∉ fiveStarConcerns reviews := by
  unfold fiveStarConcerns
  by_cases h : ((reviews.countP (fun r => decide (r.stars = 5)) : ℚ) /
      (reviews.length : ℚ) > 4/5)
  · simp [h]
  · have h9 : ¬ ((reviews.countP (fun r => decide (r.stars = 5)) : ℚ) /
        (reviews.length : ℚ) > 9/10) := by
      intro h9
      exact h (lt_trans (by norm_num) h9)
    simp [h, h9]

/-- C10: in the reviews_orientation assessor the `five_star_ratio > 0.9`
branch is dead — the preceding `> 0.8` check subsumes it — so the returned
concerns never contain `suspiciously_perfect_ratings` and the
perfect-ratings signal contributes at most `+2` to the score, for every
customer and review sample. -/
theorem suspicious_branch_unreachable (customer : Customer)
    (reviews : List Review) (six_months_ago one_year_ago : Int) (u : ℚ) :
    "suspiciously_perfect_ratings" ∉
      (assess_skepticism customer reviews six_months_ago one_year_ago u).concerns ∧
    fiveStarScore reviews ≤ 2 := by
  constructor
  · by_cases hemp : reviews.isEmpty
    · simp [assess_skepticism, hemp]
    · simp only [assess_skepticism, hemp, if_false, Bool.false_eq_true,
        List.mem_append, not_or]
      refine ⟨⟨⟨fiveStarConcerns_no_suspicious reviews, ?_⟩, ?_⟩, ?_⟩
      · split <;> (try split) <;> (try split) <;> simp
      · split <;> simp
      · split <;> simp
  · unfold fiveStarScore
    by_cases h : ((reviews.countP (fun r => decide (r.stars = 5)) : ℚ) /
        (reviews.length : ℚ) > 4/5)
    · simp [h]
    · have h9 : ¬ ((reviews.countP (fun r => decide (r.stars = 5)) : ℚ) /
          (reviews.length : ℚ) > 9/10) := by
        intro h9
        exact h (lt_trans (by norm_num) h9)
      simp [h, h9]

end ReviewsOrientation

namespace RepeatCustomers

theorem boostDateLt_asymm (a b : Review × ℚ) :
    boostDateLt a b = true → boostDateLt b a = false := by
  unfold boostDateLt
  intro h
  rcases Bool.or_eq_true_iff.mp h with h | h
  · have hlt : a.2 < b.2 := of_decide_eq_true h
    simp [not_lt.mpr (le_of_lt hlt), ne_of_gt hlt]
  · rcases Bool.and_eq_true_iff.mp h with ⟨he, hd⟩
    have heq : a.2 = b.2 := of_decide_eq_true he
    simp [heq, strLt_asymm _ _ hd]

theorem boostDateLt_total_trans (a b c : Review × ℚ) :
    boostDateLt a c = true → boostDateLt a b = true ∨ boostDateLt b c = true := by
  unfold boostDateLt
  intro h
  rcases Bool.or_eq_true_iff.mp h with h | h
  · have hac : a.2 < c.2 := of_decide_eq_true h
    rcases lt_trichotomy a.2 b.2 with hab | hab | hab
    · left; simp [hab]
    · right; simp [← hab, hac]
    · right
      have : b.2 < c.2 := lt_trans hab hac
      simp [this]
  · rcases Bool.and_eq_true_iff.mp h with ⟨he, hd⟩
    have heq : a.2 = c.2 := of_decide_eq_true he
    rcases lt_trichotomy a.2 b.2 with hab | hab | hab
    · left; simp [hab]
    · rcases strLt_total_trans a.1.date b.1.date c.1.date hd with hs | hs
      · left; simp [hab, hs]
      · right; simp [← hab, heq, hs]
    · right
      have : b.2 < c.2 := heq ▸ hab
      simp [this]

/-- The recency-boost formula exactly as the spec words it: the raw star
value, plus `0.5` for a timestamp within 30 days of `now`, else `0.25`
within 90 days, else `0`, capped at `5.0`; an unparseable timestamp gets
zero boost. -/
def specBoostedRating (now : Int) (r : Review) : ℚ :=
  match parseDate r.date with
  | some ts =>
    let bonus : ℚ :=
      if now - 30 * 86400 ≤ ts then 1/2
      else if now - 90 * 86400 ≤ ts then 1/4
      else 0
    min (r.stars + bonus) 5
  | none => r.stars

theorem boostedRating_eq_spec (now : Int) (r : Review) :
    boostedRating now r = specBoostedRating now r := by
  unfold boostedRating specBoostedRating
  cases parseDate r.date with
  | none => rfl
  | some ts =>
    dsimp only
    split_ifs <;> simp

/-- `now` of the C3 cap scenario (noon, 2024-06-30). -/
def capNow : Int := (parseDate (strCodes "2024-06-30 12:00:00")).getD 0

/-- The 4.8-star review dated 5 days before `capNow`. -/
def capReview : Review := mkReview (24/5) "2024-06-25 12:00:00"

/-- C3: under the recency-boost policy, (i) no review is dropped (the output
is a permutation of the generated-review list), (ii) the output is ordered by
boosted rating descending with the raw date value descending breaking ties,
(iii) every review's boosted rating is its star value plus `0.5` within 30
days of `now`, plus `0.25` within 90 days, plus `0` otherwise — zero boost
on an unparseable timestamp — capped at `5.0`, and (iv) concretely, a
4.8-star review dated 5 days ago boosts to exactly `5.0`. -/
theorem recent_quality_boost_reviews_spec (now : Int) (rst : Restaurant) :
    (rst.get_recent_quality_boost_reviews now).Perm rst.reviews ∧
    (rst.get_recent_quality_boost_reviews now).Pairwise (fun r1 r2 =>
      boostedRating now r1 > boostedRating now r2 ∨
      (boostedRating now r1 = boostedRating now r2 ∧
        strLt r1.date r2.date = false)) ∧
    (∀ r : Review, boostedRating now r = specBoostedRating now r) ∧
    boostedRating capNow capReview = 5 := by
  refine ⟨?_, ?_, fun r => boostedRating_eq_spec now r, ?_⟩
  · unfold Restaurant.get_recent_quality_boost_reviews
    have h := (perm_sortRevBy boostDateLt
      (rst.reviews.map (fun r => (r, boostedRating now r)))).map Prod.fst
    rw [List.map_map] at h
    have hcomp : (Prod.fst ∘ fun r : Review => (r, boostedRating now r)) = id := rfl
    rw [hcomp, List.map_id] at h
    exact h
  · unfold Restaurant.get_recent_quality_boost_reviews
    have hsorted := pairwise_sortRevBy boostDateLt boostDateLt_asymm
      boostDateLt_total_trans (rst.reviews.map (fun r => (r, boostedRating now r)))
    rw [List.pairwise_map]
    have hmem : ∀ p ∈ sortRevBy boostDateLt
        (rst.reviews.map (fun r => (r, boostedRating now r))),
        p.2 = boostedRating now p.1 := by
      intro p hp
      have := (perm_sortRevBy boostDateLt _).mem_iff.mp hp
      rcases List.mem_map.mp this with ⟨r, _, hr⟩
      rw [← hr]
    refine List.Pairwise.imp_of_mem ?_ hsorted
    intro p q hp hq hpq
    rw [← hmem p hp, ← hmem q hq]
    unfold boostDateLt at hpq
    rcases lt_trichotomy p.2 q.2 with h | h | h
    · exfalso
      rw [Bool.or_eq_false_iff] at hpq
      exact absurd (decide_eq_true h) (by simp [hpq.1])
    · right
      refine ⟨h, ?_⟩
      rw [Bool.or_eq_false_iff, Bool.and_eq_false_iff] at hpq
      rcases hpq.2 with h' | h'
      · exact absurd (decide_eq_true h) (by simp [h'])
      · exact h'
    · left; exact h
  · have hp : parseDate capReview.date = some (timestampOf 2024 6 25 12 0 0) := by
      decide
    have h30 : capNow - 30 * 86400 ≤ timestampOf 2024 6 25 12 0 0 := by decide
    simp only [boostedRating, hp, h30, if_true]
    simp only [capReview, mkReview]
    rw [min_eq_right (by norm_num : (5 : ℚ) ≤ 24/5 + 1/2)]

end RepeatCustomers

/-- A non-empty list all of whose elements equal `q` deduplicates to `[q]`. -/
theorem dedup_const (q : ℚ) :
    ∀ l : List ℚ, (∀ x ∈ l, x = q) → l ≠ [] → l.dedup = [q] := by
  intro l
  induction l with
  | nil => intro _ h; exact absurd rfl h
  | cons a as ih =>
    intro hall _
    have ha : a = q := hall a (List.mem_cons_self a as)
    cases as with
    | nil => simp [ha]
    | cons b bs =>
      have hb : b = q := hall b (by simp)
      have hmem : a ∈ b :: bs := by
        rw [ha, ← hb]
        exact List.mem_cons_self b bs
      rw [List.dedup_cons_of_mem hmem]
      exact ih (fun x hx => hall x (List.mem_cons_of_mem a hx)) (by simp)

namespace ResearchImplementation

/-- C2 (amended): a customer with criticality `critical` and personality
`analytical` shown exactly 5 reviews all of exactly 5.0 stars — with dates
that parse, a most recent review within 6 simulated months, a span of more
than 7 days, and no rating-comparison input — is assessed at final score
**11**, not 8: the spec's tally omits the `suspiciously_perfect_ratings`
signal (+3), which necessarily fires because the five-star ratio is
1.0 > 0.9.  The components are perfect-ratings +3, no-negative +1,
no-rating-diversity +2, analytical +2, critical +3.  Level is `high`, the
investigate decision is the Bernoulli draw `u < 0.8`, and the confidence
impact is `−0.3`. -/
theorem skepticism_trigger_scenario
    (cid nm : String) (theta alpha beta : Option ℚ)
    (reviews : List Review) (ds : List Int) (current_sim_date : Int) (u : ℚ)
    (hlen : reviews.length = 5)
    (hstars : ∀ r ∈ reviews, r.stars = 5)
    (hds : reviews.mapM (fun r => parseDate r.date) = some ds)
    (hrecent : current_sim_date - 180 * 86400 ≤ listMax ds)
    (hspan : 7 < (listMax ds - listMin ds).fdiv 86400) :
    (assess_skepticism ⟨cid, nm, "analytical", "critical", theta, alpha, beta⟩
        reviews none current_sim_date u).score = some 11 ∧
    (assess_skepticism ⟨cid, nm, "analytical", "critical", theta, alpha, beta⟩
        reviews none current_sim_date u).level = "high" ∧
    (assess_skepticism ⟨cid, nm, "analytical", "critical", theta, alpha, beta⟩
        reviews none current_sim_date u).will_investigate = decide (u < 4/5) ∧
    (assess_skepticism ⟨cid, nm, "analytical", "critical", theta, alpha, beta⟩
        reviews none current_sim_date u).confidence_impact = -3/10 := by
  have hemp : reviews.isEmpty = false := by
    cases reviews with
    | nil => simp at hlen
    | cons a as => rfl
  have hcount5 : reviews.countP (fun r => decide (r.stars = (5 : ℚ))) = 5 := by
    rw [← hlen]
    exact List.countP_eq_length.mpr (fun r hr => decide_eq_true (hstars r hr))
  have hlow : reviews.countP (fun r => decide (r.stars ≤ (2 : ℚ))) = 0 := by
    apply List.countP_eq_zero.mpr
    intro r hr
    rw [hstars r hr]
    decide
  have hratio : ((5 : ℕ) : ℚ) / ((5 : ℕ) : ℚ) > 9/10 := by norm_num
  have hdedup : (reviews.map Review.stars).dedup = [(5 : ℚ)] := by
    apply dedup_const
    · intro x hx
      rcases List.mem_map.mp hx with ⟨r, hr, rfl⟩
      exact hstars r hr
    · intro h
      have := congrArg List.length h
      simp [hlen] at this
  have hr1 : ¬ (listMax ds < current_sim_date - 31536000) := by omega
  have hr2 : ¬ (listMax ds < current_sim_date - 15552000) := by omega
  have hcl : ¬ ((listMax ds - listMin ds).fdiv 86400 ≤ 7) := by omega
  have hpers : (skeptical_personalities.filter (fun trait =>
      containsSub (strCodes trait) (toLowerCodes (strCodes "analytical")))).isEmpty
      = false := by decide
  have hds' : List.mapM.loop (fun r => parseDate r.date) reviews [] = some ds := hds
  refine ⟨?_, ?_, ?_, ?_⟩ <;>
    simp [assess_skepticism, hemp, hds', hcount5, hlen, hlow, hratio, hdedup,
      hpers, hr1, hr2, hcl] <;>
    norm_num

end ResearchImplementation

namespace ResearchImplementation

/-- A five-star review dated `date` (C2 scenario). -/
def c2Review (date : String) : Review :=
  { review_id := "r", user_id := "u", business_id := "A", stars := 5,
    text := "", date := strCodes date, ordered_item := "" }

/-- Five all-5.0★ reviews spanning 27 days (C2 scenario). -/
def c2Reviews : List Review :=
  [c2Review "2024-01-05 10:00:00", c2Review "2024-01-10 10:00:00",
   c2Review "2024-01-15 10:00:00", c2Review "2024-01-20 10:00:00",
   c2Review "2024-02-01 10:00:00"]

/-- The critical, analytical customer of the C2 scenario. -/
def c2Customer : Customer :=
  ⟨"c", "c", "analytical", "critical", none, none, none⟩

/-- Simulation date of the C2 scenario (all reviews within 6 months). -/
def c2Now : Int := (parseDate (strCodes "2024-03-01 09:00:00")).getD 0

/-- Parsed timestamps of `c2Reviews`. -/
def c2Dates : List Int :=
  [timestampOf 2024 1 5 10 0 0, timestampOf 2024 1 10 10 0 0,
   timestampOf 2024 1 15 10 0 0, timestampOf 2024 1 20 10 0 0,
   timestampOf 2024 2 1 10 0 0]

theorem skepticism_trigger_scenario_witness :
    (assess_skepticism c2Customer c2Reviews none c2Now (1/2)).score = some 11 ∧
    (assess_skepticism c2Customer c2Reviews none c2Now (1/2)).level = "high" := by
  have h := skepticism_trigger_scenario "c" "c" none none none c2Reviews c2Dates
    c2Now (1/2) (by decide) (by decide) (by decide) (by decide) (by decide)
  exact ⟨h.1, h.2.1⟩

/-- C2 (counterexample): on the claim's own scenario — 5 reviews all exactly
5.0★ with parseable, recent, spread dates, criticality `critical`,
personality `analytical` — the assessor's final score is 11, not the claimed
8: the spec's tally forgot the inevitable `suspiciously_perfect_ratings`
`+3` signal (five-star ratio 1.0 > 0.9). -/
theorem skepticism_trigger_scenario_not_8 :
    (assess_skepticism c2Customer c2Reviews none c2Now (1/2)).score = some 11 ∧
    (assess_skepticism c2Customer c2Reviews none c2Now (1/2)).score ≠ some 8 := by
  have hemp : c2Reviews.isEmpty = false := rfl
  have hcount5 : c2Reviews.countP (fun r => decide (r.stars = (5 : ℚ))) = 5 := by
    decide
  have hlow : c2Reviews.countP (fun r => decide (r.stars ≤ (2 : ℚ))) = 0 := by
    decide
  have hlen : c2Reviews.length = 5 := rfl
  have hratio : ((5 : ℕ) : ℚ) / ((5 : ℕ) : ℚ) > 9/10 := by norm_num
  have hdedup : (c2Reviews.map Review.stars).dedup = [(5 : ℚ)] := by decide
  have hds' : List.mapM.loop (fun r => parseDate r.date) c2Reviews [] =
      some c2Dates := by decide
  have hr1 : ¬ (listMax c2Dates < c2Now - 31536000) := by decide
  have hr2 : ¬ (listMax c2Dates < c2Now - 15552000) := by decide
  have hcl : ¬ ((listMax c2Dates - listMin c2Dates).fdiv 86400 ≤ 7) := by decide
  have hpers : (skeptical_personalities.filter (fun trait =>
      containsSub (strCodes trait) (toLowerCodes (strCodes "analytical")))).isEmpty
      = false := by decide
  have hscore : (assess_skepticism c2Customer c2Reviews none c2Now (1/2)).score
      = some 11 := by
    simp [assess_skepticism, c2Customer, hemp, hds', hcount5, hlen, hlow,
      hratio, hdedup, hpers, hr1, hr2, hcl] <;> norm_num
  refine ⟨hscore, ?_⟩
  rw [hscore]
  decide

end ResearchImplementation
